import Mathlib

/-!
Verification development for the `nl2sqldemo` repository: a shallow embedding
of the supervisor / generation / review / export loop of
`source/agent/test_case_simple_agent.py`, of the SQL guard in
`source/agent/utils/db_utils.py`, of the download endpoint in `api/main.py`,
and of the `save_test_cases` tool, together with theorems settling the
specification's claims about them.
-/

set_option autoImplicit false

namespace NL2SQL

/-! ### String helpers mirroring Python primitives

All of them are written over the character list of the string so that they
evaluate by kernel reduction on concrete inputs. -/

/-- `needle.isPrefixOf` at some suffix of the haystack: substring containment
on character lists. -/
def listIsInfixOf (needle : List Char) : List Char → Bool
  | [] => needle.isPrefixOf []
  | c :: rest => needle.isPrefixOf (c :: rest) || listIsInfixOf needle rest

/-- Python's `needle in haystack` substring test. -/
def pyContains (haystack needle : String) : Bool :=
  listIsInfixOf needle.data haystack.data

/-- Python's `str.startswith(pre)`. -/
def pyStartsWith (s pre : String) : Bool :=
  pre.data.isPrefixOf s.data

/-- Python's `str.strip()`: whitespace removed at both ends (for the ASCII
whitespace that occurs in SQL text; Python also strips further Unicode
whitespace, which no claim depends on). -/
def pyStrip (s : String) : String :=
  ⟨((s.data.dropWhile Char.isWhitespace).reverse.dropWhile Char.isWhitespace).reverse⟩

/-- Python's `str.upper()`: ASCII upcasing; non-cased code points (such as the
Chinese text in the messages) are unchanged. -/
def pyUpper (s : String) : String :=
  ⟨s.data.map Char.toUpper⟩

/-- Python's slice `s[:n]`. -/
def pyTake (s : String) (n : Nat) : String :=
  ⟨s.data.take n⟩

/-- Python's `sep.join(l)`. -/
def joinWith (sep : String) : List String → String
  | [] => ""
  | [x] => x
  | x :: y :: rest => x ++ sep ++ joinWith sep (y :: rest)

/-! ### SQL guard — `source/agent/utils/db_utils.py`, `MySQLDatabaseManager` -/

/-- Outcome of the validation prefix of `validate_sql` / `execute_query`:
either an early validation-error string is returned, or the statement is
handed to the database engine (`EXPLAIN` resp. `conn.execute`). -/
inductive SqlOutcome where
  | earlyError (msg : String)
  | sentToDatabase (sql : String)
  deriving DecidableEq

/-- The denylist of lines 111 and 156 of `db_utils.py`. -/
def dangerous_keywords : List String :=
  ["DROP", "DELETE", "UPDATE", "INSERT", "ALTER", "CREATE", "TRUNCATE"]

/-- Lines 145–163 of `db_utils.py` (`MySQLDatabaseManager.execute_query`) up
to the point where the statement is sent to the database via `conn.execute`.
In the source `sql` is rebound to `sql.strip()` and `sql_upper` to
`sql.upper().strip()`; here the stripped forms are written out. -/
def execute_query (sql : String) : SqlOutcome :=
  if sql = "" ∨ pyStrip sql = "" then .earlyError "错误: SQL语句为空"
  else if ¬ pyStartsWith (pyStrip (pyUpper (pyStrip sql))) "SELECT" then
    .earlyError ("错误: 只允许执行SELECT查询语句，当前SQL语句以 \x27"
      ++ pyTake (pyStrip sql) 20 ++ "...\x27 开头")
  else
    match dangerous_keywords.find?
        (fun kw => pyContains (pyStrip (pyUpper (pyStrip sql))) kw) with
    | some kw =>
        .earlyError ("错误: SQL语句包含危险操作 \x27" ++ kw
          ++ "\x27，只允许执行SELECT查询语句")
    | none => .sentToDatabase (pyStrip sql)

/-- Lines 100–114 of `db_utils.py` (`MySQLDatabaseManager.validate_sql`) up to
the point where the statement is sent to the database via `EXPLAIN`; the
validation prefix is textually identical to the one of `execute_query`. -/
def validate_sql (sql : String) : SqlOutcome :=
  if sql = "" ∨ pyStrip sql = "" then .earlyError "错误: SQL语句为空"
  else if ¬ pyStartsWith (pyStrip (pyUpper (pyStrip sql))) "SELECT" then
    .earlyError ("错误: 只允许执行SELECT查询语句，当前SQL语句以 \x27"
      ++ pyTake (pyStrip sql) 20 ++ "...\x27 开头")
  else
    match dangerous_keywords.find?
        (fun kw => pyContains (pyStrip (pyUpper (pyStrip sql))) kw) with
    | some kw =>
        .earlyError ("错误: SQL语句包含危险操作 \x27" ++ kw
          ++ "\x27，只允许执行SELECT查询语句")
    | none => .sentToDatabase (pyStrip sql)

/-! ### Download endpoint — `api/main.py`, `download_file` -/

/-- The downloads directory (`DOWNLOADS_DIR`, imported by `api/main.py`; the
Excel tool writes it as `project_root / "downloads"`). Its concrete value is
irrelevant to the claims. -/
def DOWNLOADS_DIR : String := "downloads"

/-- The external filesystem, abstracting `Path.exists` and the success of
`file_path.resolve().relative_to(DOWNLOADS_DIR.resolve())`. -/
structure FileSystem where
  pathExists : String → Bool
  resolvesInsideDownloads : String → Bool

/-- The endpoint's observable response: an `HTTPException` with a status code,
or a `FileResponse` serving a path under a download filename. -/
inductive DownloadResponse where
  | httpError (status : Nat) (detail : String)
  | file (path : String) (filename : String)
  deriving DecidableEq

/-- Lines 41–74 of `api/main.py` (`download_file`), phrased over the
URL-decoded filename (`urllib.parse.unquote` is standard-library code applied
before these checks). -/
def download_file (fs : FileSystem) (decoded_filename : String) : DownloadResponse :=
  if pyContains decoded_filename ".." ∨ pyContains decoded_filename "/"
      ∨ pyContains decoded_filename "\\" then
    .httpError 400 "Invalid filename"
  else
    let file_path := DOWNLOADS_DIR ++ "/" ++ decoded_filename
    if ¬ fs.pathExists file_path then .httpError 404 "File not found"
    else if ¬ fs.resolvesInsideDownloads file_path then .httpError 400 "Invalid file path"
    else .file file_path decoded_filename

/-! ### JSON values and the `save_test_cases` tool -/

/-- JSON values, the possible results of `json.loads`. -/
inductive Json where
  | null
  | bool (b : Bool)
  | num (n : Int)
  | str (s : String)
  | arr (elems : List Json)
  | obj (fields : List (String × Json))

/-- The shared scratch state visible to the tool functions
(`_global_state` in `test_case_simple_agent.py`), restricted to the field
the `save_test_cases` tool touches. -/
structure GlobalState where
  test_cases : List Json

/-- Lines 47–71 of `test_case_simple_agent.py` (`save_test_cases`). The
caught result of `json.loads` (standard-library code) is taken as input; on
success the shared state's `test_cases` is set to a list — any non-list value,
in particular a top-level object, is wrapped into a singleton — and a count
message is returned; on failure the `保存失败` message is returned and the
state is untouched. The `try`/`except` makes the source function total, which
the embedding reflects by returning in both cases. -/
def save_test_cases (parsed : Except String Json) (st : GlobalState) :
    String × GlobalState :=
  match parsed with
  | .error e => ("保存失败: " ++ e, st)
  | .ok data =>
      let newCases : List Json :=
        match data with
        | .obj fields => [Json.obj fields]
        | .arr elems => elems
        | other => [other]
      let st := { st with test_cases := newCases }
      ("测试用例编写结果已保存: " ++ toString newCases.length ++ " 个测试用例", st)

/-! ### The supervisor loop — `test_case_simple_agent.py`

The LangGraph state (`AgentState`, lines 155–164) and the four node
functions.  The LLM is external: each node takes an oracle value describing
the reply (and tool side effects) of the `agent.invoke` call it performs. -/

/-- A test-case dict; every key the source reads is an optional field
(`dict.get` with a default in the source). -/
structure TestCase where
  test_case_id : Option String := none
  test_type : Option String := none
  test_description : Option String := none
  test_steps : Option (List String) := none
  expected_result : Option String := none
  priority : Option String := none
  preconditions : Option String := none
  deriving DecidableEq

/-- The fallback test case installed by the generation node
(lines 217–225 and 236–244). -/
def defaultTestCase : TestCase :=
  { test_case_id := some "TC_001"
  , test_type := some "功能测试"
  , test_description := some "基本功能测试"
  , test_steps := some ["步骤1: 准备测试环境", "步骤2: 执行测试", "步骤3: 验证结果"]
  , expected_result := some "测试通过"
  , priority := some "中"
  , preconditions := some "" }

/-- Python's format `f"TC_{idx+1:03d}"` zero padding. -/
def pad3 (n : Nat) : String :=
  if n < 10 then "00" ++ toString n
  else if n < 100 then "0" ++ toString n
  else toString n

/-- Lines 203–204: `tc.setdefault("test_case_id", f"TC_{idx+1:03d}")` over the
enumerated parsed list. -/
def withDefaultIds (tcs : List TestCase) : List TestCase :=
  tcs.enum.map (fun p =>
    { p.2 with test_case_id := some (p.2.test_case_id.getD ("TC_" ++ pad3 (p.1 + 1))) })

/-- The nested `"scores"` dict of a review reply, keyed by name; JSON numbers
are modelled as integers. -/
abbrev ScoresDict := List (String × Int)

/-- `scores.get(key, default)`. -/
def dictGetInt (d : ScoresDict) (k : String) (dflt : Int) : Int :=
  match d.find? (fun p => p.1 == k) with
  | some p => p.2
  | none => dflt

/-- One element of a reply's `"optimization_suggestions"` list
(lines 300–308): a dict with a `"suggestion"` key, a dict with only a
`"suggestions"` key, a dict with neither, a plain string, or any other JSON
value (skipped). -/
inductive OptSuggestion where
  | dictWithSuggestion (s : String)
  | dictWithSuggestions (l : List String)
  | dictOther
  | str (s : String)
  | other
  deriving DecidableEq

/-- The suggestion-collecting loop of lines 299–308. -/
def extractSuggestions : List OptSuggestion → List String
  | [] => []
  | o :: rest =>
      (match o with
       | .dictWithSuggestion s => [s]
       | .dictWithSuggestions l => l
       | .dictOther => []
       | .str s => [s]
       | .other => []) ++ extractSuggestions rest

/-- A review dict; every key the source reads is an optional field. -/
structure ReviewData where
  score : Option Int := none
  total_score : Option Int := none
  scores : Option ScoresDict := none
  coverage_score : Option Int := none
  executability_score : Option Int := none
  clarity_score : Option Int := none
  suggestions : Option (List String) := none
  optimization_suggestions : Option (List OptSuggestion) := none
  is_passed : Option Bool := none
  deriving DecidableEq

/-- Lines 286–309: the field-completion step on a successfully parsed review
dict.  A dict that already has a `"score"` key is kept verbatim; otherwise
`score` is `int(total)` — Python truncates the float quotient toward zero,
as `Int` division does for the score magnitudes at hand — with `total` taken
from a non-zero `"total_score"` or else the mean of the three sub-scores of a
non-empty `"scores"` dict, `is_passed` becomes `score >= 80`, and
`suggestions` is rebuilt from `"optimization_suggestions"`. -/
def normalizeReview (r : ReviewData) : ReviewData :=
  match r.score with
  | some _ => r
  | none =>
      let scores := r.scores.getD []
      let total0 : Int := r.total_score.getD 0
      let total : Int :=
        if total0 = 0 ∧ scores ≠ [] then
          (dictGetInt scores "coverage" 0 + dictGetInt scores "executability" 0
            + dictGetInt scores "clarity" 0) / 3
        else total0
      { r with score := some total
             , coverage_score := some (dictGetInt scores "coverage" 0)
             , executability_score := some (dictGetInt scores "executability" 0)
             , clarity_score := some (dictGetInt scores "clarity" 0)
             , is_passed := some (decide (total ≥ 80))
             , suggestions := some (extractSuggestions (r.optimization_suggestions.getD [])) }

/-- The LangGraph state of lines 155–164; messages keep only their content
strings. -/
structure AgentState where
  messages : List String
  original_requirement : String
  test_cases : List TestCase
  review_result : Option ReviewData
  iteration_count : Nat
  current_agent : String
  optimization_suggestions : List String
  final_output : String
  deriving DecidableEq

/-- Lines 182–188: the prompt handed to the generation agent, with the
optimization hint appended when suggestions were carried over. -/
def generationPrompt (original_requirement : String) (suggestions : List String) : String :=
  let optimization_hint :=
    if suggestions ≠ [] then
      "\n\n请特别注意以下优化建议：\n" ++ joinWith "\n" (suggestions.map (fun s => "- " ++ s))
    else ""
  "请根据以下需求文档生成测试用例：\n\n" ++ original_requirement ++ optimization_hint

/-- Oracle for one `agent.invoke` call of the generation node: `toolSaved` is
the list written into the shared dict by the `save_test_cases` tool during the
call (if the model called it), `parsed` the JSON array found in the reply text
by the regex of line 199 (if any); `exc` is the exception path, which may
still observe a tool write that happened before the exception. -/
inductive GenOutcome where
  | ok (toolSaved : Option (List TestCase)) (parsed : Option (List TestCase))
  | exc (toolSaved : Option (List TestCase)) (e : String)

/-- Lines 169–248 (`test_case_generation_agent_node`).
`set_global_state(state)` stores the state dict itself, so the tool writes and
the reply-parsing write of line 205 hit the same dict and the read-back of
lines 210–212 is the identity. Both the normal and the exception path install
`defaultTestCase` whenever `test_cases` would be left empty; only the normal
path clears `optimization_suggestions` (line 228). -/
def test_case_generation_agent_node (st : AgentState) (o : GenOutcome) : AgentState :=
  match o with
  | .exc toolSaved e =>
      let afterInvoke := toolSaved.getD st.test_cases
      let tcs := if afterInvoke = [] then [defaultTestCase] else afterInvoke
      { st with test_cases := tcs
              , current_agent := "test_case_generation_agent"
              , messages := st.messages ++ ["测试用例生成失败: " ++ e] }
  | .ok toolSaved parsed =>
      let afterInvoke := toolSaved.getD st.test_cases
      let afterParse := match parsed with
        | some l => withDefaultIds l
        | none => afterInvoke
      let tcs := if afterParse = [] then [defaultTestCase] else afterParse
      { st with test_cases := tcs
              , current_agent := "test_case_generation_agent"
              , optimization_suggestions := []
              , messages := st.messages
                  ++ ["测试用例生成完成：共生成 " ++ toString tcs.length ++ " 个测试用例"] }

/-- The fallback review of lines 321–328 and 332–339. -/
def defaultReview : ReviewData :=
  { score := some 60, coverage_score := some 60, executability_score := some 60
  , clarity_score := some 60
  , suggestions := some ["评审过程出现错误，请检查测试用例"]
  , is_passed := some false }

/-- The fallback review of the outer exception handler (lines 349–356). -/
def defaultReviewExc (e : String) : ReviewData :=
  { score := some 60, coverage_score := some 60, executability_score := some 60
  , clarity_score := some 60
  , suggestions := some ["评审过程出现错误: " ++ e]
  , is_passed := some false }

/-- Oracle for one `agent.invoke` call of the review node: the reply contains
a parsable JSON object, or a brace-matched span that fails `json.loads`
(`jsonError`), or no brace-matched span at all (`noJsonMatch`, which also
covers a reply without text content), or the call raises (`exc`). -/
inductive RevOutcome where
  | parsed (d : ReviewData)
  | jsonError
  | noJsonMatch
  | exc (e : String)

/-- The review-summary message of line 342, built after `review_result` has
been set. -/
def reviewDoneMsg (st : AgentState) : String :=
  "评审完成，得分: " ++ toString (match st.review_result with
    | some r => r.score.getD 0
    | none => 0) ++ "/100"

/-- Lines 251–360 (`test_case_review_agent_node`).  With no test cases only an
error message is appended (lines 262–264).  A parsed reply is normalized and
stored; when it is not passed the suggestions are carried over and
`iteration_count` is incremented (lines 313–317).  A `json.loads` failure
installs `defaultReview` (lines 318–328); a reply with no JSON object installs
it only when `review_result` is still `None` (lines 330–339); the outer
exception handler always installs its default (lines 346–358).  Note that only
the parsed-and-not-passed path touches `iteration_count`. -/
def test_case_review_agent_node (st : AgentState) (o : RevOutcome) : AgentState :=
  if st.test_cases = [] then
    { st with messages := st.messages ++ ["错误：没有测试用例，无法进行评审"] }
  else
    match o with
    | .parsed d =>
        let d' := normalizeReview d
        let st1 := { st with review_result := some d' }
        let st2 :=
          if d'.is_passed.getD false then st1
          else
            { st1 with optimization_suggestions := d'.suggestions.getD []
                     , iteration_count := st1.iteration_count + 1 }
        { st2 with current_agent := "test_case_review_agent"
                 , messages := st2.messages ++ [reviewDoneMsg st2] }
    | .jsonError =>
        let st1 := { st with review_result := some defaultReview }
        { st1 with current_agent := "test_case_review_agent"
                 , messages := st1.messages ++ [reviewDoneMsg st1] }
    | .noJsonMatch =>
        let st1 := match st.review_result with
          | none => { st with review_result := some defaultReview }
          | some _ => st
        { st1 with current_agent := "test_case_review_agent"
                 , messages := st1.messages ++ [reviewDoneMsg st1] }
    | .exc e =>
        { st with review_result := some (defaultReviewExc e)
                , current_agent := "test_case_review_agent"
                , messages := st.messages ++ ["测试用例评审失败: " ++ e] }

/-- Insertion-ordered grouping key list, mirroring the Python dict built in
lines 386–391. -/
def groupTypes (tcs : List TestCase) : List String :=
  tcs.foldl (fun acc tc =>
    let ty := tc.test_type.getD "其他"
    if ty ∈ acc then acc else acc ++ [ty]) []

/-- Lines 397–406: the Markdown block of one test case. -/
def testCaseLines (tc : TestCase) : List String :=
  ["\n#### 测试用例 " ++ tc.test_case_id.getD "N/A"
  , "**测试描述**: " ++ tc.test_description.getD "N/A"
  , "**优先级**: " ++ tc.priority.getD "N/A"
  , "**前置条件**: " ++ tc.preconditions.getD "无"
  , "\n**测试步骤**:"]
  ++ ((tc.test_steps.getD []).enum.map (fun p => toString (p.1 + 1) ++ ". " ++ p.2))
  ++ ["\n**预期结果**: " ++ tc.expected_result.getD "N/A"]

/-- Lines 409–421: the review section of the document (present when
`review_result` is truthy, with the suggestion list when non-empty). -/
def reviewSectionLines (r : ReviewData) : List String :=
  ["\n## 3. 评审结果"
  , "**总分**: " ++ toString (r.score.getD 0) ++ "/100"
  , "**覆盖率**: " ++ toString (r.coverage_score.getD 0) ++ "/100"
  , "**可执行性**: " ++ toString (r.executability_score.getD 0) ++ "/100"
  , "**无歧义性**: " ++ toString (r.clarity_score.getD 0) ++ "/100"
  , "**评审结果**: " ++ (if r.is_passed.getD false then "通过" else "不通过")]
  ++ (match r.suggestions with
      | some (s :: rest) => "\n**优化建议**:" :: (s :: rest).map (fun t => "- " ++ t)
      | _ => [])

/-- Oracle for the export node: the timestamp of line 379, or an exception
while building or writing the document. -/
inductive ExpOutcome where
  | ok (now : String)
  | exc (e : String)

/-- Lines 363–435 (`test_case_generator_node`): with no test cases only an
error message is appended; otherwise the Markdown document is assembled into
`final_output`. The exception path (lines 431–433) appends a message only —
in particular it does not set `current_agent`. -/
def test_case_generator_node (st : AgentState) (o : ExpOutcome) : AgentState :=
  if st.test_cases = [] then
    { st with messages := st.messages ++ ["错误：没有测试用例，无法生成文档"] }
  else
    match o with
    | .exc e => { st with messages := st.messages ++ ["测试用例文档生成失败: " ++ e] }
    | .ok now =>
        let output_lines :=
          ["# 测试用例文档", "\n生成时间: " ++ now, "\n## 1. 需求概述"
          , "\n" ++ st.original_requirement, "\n## 2. 测试用例"]
          ++ (groupTypes st.test_cases).flatMap (fun ty =>
               ("\n### " ++ ty)
                 :: (st.test_cases.filter (fun tc => tc.test_type.getD "其他" == ty)).flatMap
                      testCaseLines)
          ++ (match st.review_result with
              | some r => reviewSectionLines r
              | none => [])
        { st with final_output := joinWith "\n" output_lines
                , current_agent := "test_case_generator"
                , messages := st.messages
                    ++ ["测试用例文档生成完成！共 " ++ toString st.test_cases.length
                        ++ " 个测试用例"] }

/-- The iteration bound; line 463 hardcodes the literal 3. -/
def max_iterations : Nat := 3

/-- Lines 440–476 (`supervisor_router`).  The source tests
`review_result and review_result.get("is_passed", False)`; a review dict
stored by the node embeddings is never the empty (falsy) dict, so Python dict
truthiness and `Option` matching agree, and on the empty dict both give the
not-passed branch anyway. -/
def supervisor_router (st : AgentState) : String :=
  if st.current_agent = "" then "test_case_generation_agent"
  else if st.current_agent = "test_case_generation_agent" then "test_case_review_agent"
  else if st.current_agent = "test_case_review_agent" then
    if (match st.review_result with
        | some r => r.is_passed.getD false
        | none => false) then "test_case_generator"
    else if st.iteration_count < max_iterations then "test_case_generation_agent"
    else "test_case_generator"
  else if st.current_agent = "test_case_generator" then "end"
  else "end"

/-- The positions of the compiled graph: the four nodes plus `END`. -/
inductive Node where
  | supervisor
  | generation
  | review
  | exporter
  | terminal
  deriving DecidableEq

/-- Oracle values for every node a step might execute. -/
structure OracleStep where
  gen : GenOutcome
  rev : RevOutcome
  exp : ExpOutcome

/-- A configuration of the compiled graph: the position about to execute, and
the current state. -/
structure Config where
  node : Node
  state : AgentState

/-- The conditional-edge mapping of lines 502–511. -/
def routeOf (target : String) : Node :=
  if target = "test_case_generation_agent" then .generation
  else if target = "test_case_review_agent" then .review
  else if target = "test_case_generator" then .exporter
  else .terminal

/-- One step of the compiled workflow (lines 486–519): `supervisor` is the
entry point and the identity on the state (line 481), its conditional edges
follow `supervisor_router`; generation and review return to the supervisor
(lines 514–515); the generator node goes to `END` (line 516). -/
def step (o : OracleStep) (c : Config) : Config :=
  match c.node with
  | .supervisor => { c with node := routeOf (supervisor_router c.state) }
  | .generation =>
      { node := .supervisor, state := test_case_generation_agent_node c.state o.gen }
  | .review =>
      { node := .supervisor, state := test_case_review_agent_node c.state o.rev }
  | .exporter =>
      { node := .terminal, state := test_case_generator_node c.state o.exp }
  | .terminal => c

/-- The initial state of lines 567–576. -/
def initialState (requirement_doc : String) : AgentState :=
  { messages := ["请根据以下需求文档生成测试用例：\n\n" ++ requirement_doc]
  , original_requirement := requirement_doc
  , test_cases := []
  , review_result := none
  , iteration_count := 0
  , current_agent := ""
  , optimization_suggestions := []
  , final_output := "" }

/-- The graph is entered at the supervisor (line 499). -/
def initialConfig (requirement_doc : String) : Config :=
  { node := .supervisor, state := initialState requirement_doc }

/-- The run of the compiled graph under an oracle stream. -/
def run (O : Nat → OracleStep) (c0 : Config) : Nat → Config
  | 0 => c0
  | n + 1 => step (O n) (run O c0 n)

/-! ### Concrete scenarios and invariants used by the claim theorems -/

/-- A post-generation state: one default test case, no review yet. -/
def cexState : AgentState :=
  { messages := []
  , original_requirement := "需求"
  , test_cases := [defaultTestCase]
  , review_result := none
  , iteration_count := 0
  , current_agent := "test_case_generation_agent"
  , optimization_suggestions := []
  , final_output := "" }

/-- An oracle under which every review reply fails `json.loads`
(the generation replies carry no parsable content either, so the default test
case is installed). -/
def allFailOracle : Nat → OracleStep := fun _ =>
  { gen := .ok none none, rev := .jsonError, exp := .ok "" }

/-- An oracle under which every review reply parses and passes. -/
def passOracle : Nat → OracleStep := fun _ =>
  { gen := .ok none none
  , rev := .parsed { score := some 90, is_passed := some true }
  , exp := .ok "2026-01-01 00:00:00" }

/-- Invariant of the all-parse-fail run: the iteration counter never moves and
the graph position cycles among supervisor, generation and review. -/
def loopInv (c : Config) : Prop :=
  c.state.iteration_count = 0
  ∧ ((c.node = Node.supervisor
        ∧ (c.state.current_agent = ""
            ∨ (c.state.current_agent = "test_case_generation_agent"
                ∧ c.state.test_cases ≠ [])
            ∨ (c.state.current_agent = "test_case_review_agent"
                ∧ ∀ r, c.state.review_result = some r → r.is_passed.getD false = false)))
      ∨ c.node = Node.generation
      ∨ (c.node = Node.review ∧ c.state.test_cases ≠ []))

/-- Invariant of every run: the export node is only ever entered with a
non-empty test-case list. -/
def exportInv (c : Config) : Prop :=
  (c.node = Node.exporter → c.state.test_cases ≠ [])
  ∧ (c.node = Node.review → c.state.test_cases ≠ [])
  ∧ (c.node = Node.supervisor →
      (c.state.current_agent = "test_case_generation_agent"
        ∨ c.state.current_agent = "test_case_review_agent") →
      c.state.test_cases ≠ [])

/-- A post-review state holding the fallback review. -/
def reviewedState : AgentState :=
  { cexState with current_agent := "test_case_review_agent"
                , review_result := some defaultReview }

/-- A reviewer reply that already carries a `"score"` key (and nothing else):
stored verbatim by the review node. -/
def highScoreReview : ReviewData := { score := some 95 }

/-- A reviewer reply with a `"score"` key contradicting both the mean rule and
the threshold rule: stored verbatim by the review node. -/
def badReview : ReviewData :=
  { score := some 100, coverage_score := some 0, executability_score := some 0
  , clarity_score := some 0, is_passed := some false }

/-- A previously stored not-passed review. -/
def prevReview : ReviewData := { score := some 70, is_passed := some false }

/-- A post-generation state that already carries a review from an earlier
iteration. -/
def prevState : AgentState := { cexState with review_result := some prevReview }

/-- A reviewer reply with only a `"scores"` sub-dict, exercising the
normalization path. -/
def meanScoresReview : ReviewData :=
  { scores := some [("coverage", 90), ("executability", 80), ("clarity", 70)] }

end NL2SQL

namespace NL2SQL

/-! ### Helper lemmas -/

/-- Concatenation of strings is associative (used to peel fixed prefixes off
error messages). -/
theorem string_append_assoc (a b c : String) : a ++ b ++ c = a ++ (b ++ c) := by
  cases a with
  | mk da =>
    cases b with
    | mk db =>
      cases c with
      | mk dc =>
        show String.mk (da ++ db ++ dc) = String.mk (da ++ (db ++ dc))
        rw [List.append_assoc]

/-- Peeling a fixed prefix off a concatenation. -/
theorem append_peel (P B X : String) {A : String} (h : A = P ++ B) :
    A ++ X = P ++ (B ++ X) := by
  rw [h, string_append_assoc]

theorem validate_sql_eq_execute_query (sql : String) :
    validate_sql sql = execute_query sql := rfl

/-! #### Node-effect lemmas -/

/-- The generation node always leaves a non-empty test-case list, sets its
agent name, and never touches the iteration counter, the review result or the
requirement. -/
theorem gen_node_spec (st : AgentState) (o : GenOutcome) :
    (test_case_generation_agent_node st o).test_cases ≠ []
      ∧ (test_case_generation_agent_node st o).current_agent
          = "test_case_generation_agent"
      ∧ (test_case_generation_agent_node st o).iteration_count = st.iteration_count
      ∧ (test_case_generation_agent_node st o).review_result = st.review_result
      ∧ (test_case_generation_agent_node st o).original_requirement
          = st.original_requirement := by
  refine ⟨?_, ?_, ?_, ?_, ?_⟩
  · cases o <;> simp only [test_case_generation_agent_node] <;> split <;> simp_all
  · cases o <;> rfl
  · cases o <;> rfl
  · cases o <;> rfl
  · cases o <;> rfl

/-- Fields of the review node's output on a non-empty test-case list. -/
theorem review_node_fields (st : AgentState) (o : RevOutcome)
    (h : st.test_cases ≠ []) :
    (test_case_review_agent_node st o).current_agent = "test_case_review_agent"
      ∧ (test_case_review_agent_node st o).test_cases = st.test_cases
      ∧ (test_case_review_agent_node st o).original_requirement
          = st.original_requirement
      ∧ (test_case_review_agent_node st o).iteration_count
          = st.iteration_count
            + (match o with
               | .parsed d => if (normalizeReview d).is_passed.getD false then 0 else 1
               | _ => 0) := by
  cases o with
  | parsed d =>
      by_cases hp : (normalizeReview d).is_passed.getD false <;>
        simp [test_case_review_agent_node, h, hp]
  | jsonError => simp [test_case_review_agent_node, h]
  | noJsonMatch =>
      cases hr : st.review_result <;>
        simp [test_case_review_agent_node, h, hr]
  | exc e => simp [test_case_review_agent_node, h]

/-- The review result stored by the review node on a non-empty test-case
list, per oracle outcome. -/
theorem review_node_result (st : AgentState) (o : RevOutcome)
    (h : st.test_cases ≠ []) :
    (test_case_review_agent_node st o).review_result
      = (match o with
         | .parsed d => some (normalizeReview d)
         | .jsonError => some defaultReview
         | .noJsonMatch => (match st.review_result with
            | none => some defaultReview
            | some r => some r)
         | .exc e => some (defaultReviewExc e)) := by
  cases o with
  | parsed d =>
      by_cases hp : (normalizeReview d).is_passed.getD false <;>
        simp [test_case_review_agent_node, h, hp]
  | jsonError => simp [test_case_review_agent_node, h]
  | noJsonMatch =>
      cases hr : st.review_result <;>
        simp [test_case_review_agent_node, h, hr]
  | exc e => simp [test_case_review_agent_node, h]

/-- The iteration counter after a successfully parsed review: bumped exactly
when the normalized review is not passed. -/
theorem review_node_count_parsed (st : AgentState) (d : ReviewData)
    (h : st.test_cases ≠ []) :
    (test_case_review_agent_node st (.parsed d)).iteration_count
      = st.iteration_count
        + (if (normalizeReview d).is_passed.getD false then 0 else 1) := by
  by_cases hp : (normalizeReview d).is_passed.getD false <;>
    simp [test_case_review_agent_node, h, hp]

/-- On the successfully-parsed-and-not-passed path the suggestions of the
stored review are carried into `optimization_suggestions`. -/
theorem review_node_suggestions (st : AgentState) (d : ReviewData)
    (h : st.test_cases ≠ [])
    (hnp : (normalizeReview d).is_passed.getD false = false) :
    (test_case_review_agent_node st (.parsed d)).optimization_suggestions
      = (normalizeReview d).suggestions.getD [] := by
  simp [test_case_review_agent_node, h, hnp]

/-! #### Router lemmas -/

theorem router_of_empty_ca (st : AgentState) (h : st.current_agent = "") :
    supervisor_router st = "test_case_generation_agent" := by
  simp [supervisor_router, h]

theorem router_of_gen_ca (st : AgentState)
    (h : st.current_agent = "test_case_generation_agent") :
    supervisor_router st = "test_case_review_agent" := by
  simp [supervisor_router, h]

/-- The post-review routing decision: export iff the stored review is passed
or the iteration bound is reached. -/
theorem router_after_review (st : AgentState) (r : ReviewData)
    (hca : st.current_agent = "test_case_review_agent")
    (hr : st.review_result = some r) :
    supervisor_router st
      = (if r.is_passed.getD false ∨ st.iteration_count ≥ max_iterations
         then "test_case_generator" else "test_case_generation_agent") := by
  by_cases hp : r.is_passed.getD false
  · simp [supervisor_router, hca, hr, hp]
  · by_cases hc : st.iteration_count < max_iterations
    · simp [supervisor_router, hca, hr, hp, hc, Nat.not_le_of_lt hc]
    · simp [supervisor_router, hca, hr, hp, hc, Nat.le_of_not_lt hc]

/-- The post-review routing when the state has no review result at all. -/
theorem router_after_review_none (st : AgentState)
    (hca : st.current_agent = "test_case_review_agent")
    (hr : st.review_result = none) :
    supervisor_router st
      = (if st.iteration_count ≥ max_iterations
         then "test_case_generator" else "test_case_generation_agent") := by
  by_cases hc : st.iteration_count < max_iterations
  · simp [supervisor_router, hca, hr, hc, Nat.not_le_of_lt hc]
  · simp [supervisor_router, hca, hr, hc, Nat.le_of_not_lt hc]

/-! #### Run lemmas -/

theorem run_succ (O : Nat → OracleStep) (c0 : Config) (n : Nat) :
    run O c0 (n + 1) = step (O n) (run O c0 n) := rfl

theorem step_of_export (o : OracleStep) (c : Config) (h : c.node = Node.exporter) :
    (step o c).node = Node.terminal := by
  cases c with
  | mk nd stt =>
      simp only at h
      subst h
      rfl

theorem step_of_terminal (o : OracleStep) (c : Config) (h : c.node = Node.terminal) :
    step o c = c := by
  cases c with
  | mk nd stt =>
      simp only at h
      subst h
      rfl

/-- The terminal position is absorbing. -/
theorem run_terminal_after (O : Nat → OracleStep) (c0 : Config) (n : Nat)
    (h : (run O c0 n).node = Node.terminal) :
    ∀ m, n ≤ m → (run O c0 m).node = Node.terminal := by
  intro m hm
  induction m, hm using Nat.le_induction with
  | base => exact h
  | succ m hm ih =>
      rw [run_succ, step_of_terminal _ _ ih]
      exact ih

/-! #### Substring lemmas for the generation prompt -/

theorem listIsInfixOf_of_infix {n h : List Char} (hinf : n <:+: h) :
    listIsInfixOf n h = true := by
  induction h with
  | nil =>
      rw [List.infix_nil] at hinf
      subst hinf
      rfl
  | cons c rest ih =>
      rw [List.infix_cons_iff] at hinf
      rw [listIsInfixOf, Bool.or_eq_true]
      rcases hinf with hpre | hinf
      · exact Or.inl (List.isPrefixOf_iff_prefix.mpr hpre)
      · exact Or.inr (ih hinf)

theorem pyContains_of_data_infix {hay s : String} (h : s.data <:+: hay.data) :
    pyContains hay s = true :=
  listIsInfixOf_of_infix h

theorem string_data_append (a b : String) : (a ++ b).data = a.data ++ b.data := by
  cases a
  cases b
  rfl

/-- A member of the joined list occurs in the join. -/
theorem mem_infix_joinWith (sep s : String) (l : List String) (hmem : s ∈ l) :
    s.data <:+: (joinWith sep l).data := by
  induction l with
  | nil => cases hmem
  | cons x rest ih =>
      cases rest with
      | nil =>
          rcases List.mem_singleton.mp hmem with rfl
          exact List.infix_refl _
      | cons y rest' =>
          rcases List.mem_cons.mp hmem with rfl | hmem'
          · rw [joinWith, string_data_append, string_data_append, List.append_assoc]
            exact (List.prefix_append s.data _).isInfix
          · have := ih hmem'
            rw [joinWith, string_data_append]
            exact this.trans (List.suffix_append _ _).isInfix

/-! #### Step-shape and routing lemmas -/

theorem step_of_supervisor (o : OracleStep) (c : Config)
    (h : c.node = Node.supervisor) :
    step o c = ⟨routeOf (supervisor_router c.state), c.state⟩ := by
  cases c with
  | mk nd stt =>
      simp only at h
      subst h
      rfl

theorem step_of_generation (o : OracleStep) (c : Config)
    (h : c.node = Node.generation) :
    step o c = ⟨Node.supervisor, test_case_generation_agent_node c.state o.gen⟩ := by
  cases c with
  | mk nd stt =>
      simp only at h
      subst h
      rfl

theorem step_of_review (o : OracleStep) (c : Config)
    (h : c.node = Node.review) :
    step o c = ⟨Node.supervisor, test_case_review_agent_node c.state o.rev⟩ := by
  cases c with
  | mk nd stt =>
      simp only at h
      subst h
      rfl

theorem routeOf_genAgent : routeOf "test_case_generation_agent" = Node.generation := by
  decide

theorem routeOf_revAgent : routeOf "test_case_review_agent" = Node.review := by
  decide

theorem routeOf_generator : routeOf "test_case_generator" = Node.exporter := by
  decide

theorem routeOf_end : routeOf "end" = Node.terminal := by
  decide

theorem routeOf_ne_supervisor (s : String) : routeOf s ≠ Node.supervisor := by
  unfold routeOf
  split
  · simp
  · split
    · simp
    · split <;> simp

theorem router_of_other_ca (st : AgentState) (h1 : st.current_agent ≠ "")
    (h2 : st.current_agent ≠ "test_case_generation_agent")
    (h3 : st.current_agent ≠ "test_case_review_agent") :
    supervisor_router st = "end" := by
  simp [supervisor_router, h1, h2, h3]

/-! #### The all-parse-fail run never reaches the export node -/

theorem loopInv_step (o : OracleStep) (ho : o.rev = RevOutcome.jsonError)
    (c : Config) (hinv : loopInv c) : loopInv (step o c) := by
  obtain ⟨hcount, hpos⟩ := hinv
  rcases hpos with ⟨hsup, hca⟩ | hgen | ⟨hrev, htcs⟩
  · rw [step_of_supervisor o c hsup]
    rcases hca with hca | ⟨hca, htcs⟩ | ⟨hca, hrr⟩
    · rw [router_of_empty_ca _ hca, routeOf_genAgent]
      exact ⟨hcount, Or.inr (Or.inl rfl)⟩
    · rw [router_of_gen_ca _ hca, routeOf_revAgent]
      exact ⟨hcount, Or.inr (Or.inr ⟨rfl, htcs⟩)⟩
    · have hroute : supervisor_router c.state = "test_case_generation_agent" := by
        rcases hr : c.state.review_result with _ | r
        · rw [router_after_review_none _ hca hr, if_neg (by rw [hcount]; decide)]
        · rw [router_after_review _ r hca hr]
          rw [if_neg]
          rw [hrr r hr, hcount]
          decide
      rw [hroute, routeOf_genAgent]
      exact ⟨hcount, Or.inr (Or.inl rfl)⟩
  · rw [step_of_generation o c hgen]
    obtain ⟨htcs', hca', hcount', _, _⟩ := gen_node_spec c.state o.gen
    exact ⟨hcount'.trans hcount, Or.inl ⟨rfl, Or.inr (Or.inl ⟨hca', htcs'⟩)⟩⟩
  · rw [step_of_review o c hrev, ho]
    obtain ⟨hca', htcs', _, hcount'⟩ :=
      review_node_fields c.state RevOutcome.jsonError htcs
    have hres := review_node_result c.state RevOutcome.jsonError htcs
    refine ⟨by rw [hcount']; simpa using hcount, Or.inl ⟨rfl, Or.inr (Or.inr ⟨hca', ?_⟩)⟩⟩
    intro r hr
    rw [hres] at hr
    simp only [Option.some.injEq] at hr
    subst hr
    rfl

theorem loopInv_run (req : String) (n : Nat) :
    loopInv (run allFailOracle (initialConfig req) n) := by
  induction n with
  | zero => exact ⟨rfl, Or.inl ⟨rfl, Or.inl rfl⟩⟩
  | succ n ih => rw [run_succ]; exact loopInv_step _ rfl _ ih

theorem loopInv_position (c : Config) (h : loopInv c) :
    c.node ≠ Node.exporter ∧ c.node ≠ Node.terminal := by
  rcases h.2 with ⟨hn, _⟩ | hn | ⟨hn, _⟩ <;> rw [hn] <;> exact ⟨by simp, by simp⟩

/-! #### The export node only ever runs on a non-empty test-case list -/

theorem exportInv_step (o : OracleStep) (c : Config) (hinv : exportInv c) :
    exportInv (step o c) := by
  obtain ⟨hexp, hrev, hsup⟩ := hinv
  cases c with
  | mk nd stt =>
      cases nd with
      | supervisor =>
          rw [step_of_supervisor o _ rfl]
          by_cases h1 : stt.current_agent = ""
          · rw [router_of_empty_ca _ h1, routeOf_genAgent]
            exact ⟨by simp, by simp, by simp⟩
          · by_cases h2 : stt.current_agent = "test_case_generation_agent"
            · rw [router_of_gen_ca _ h2, routeOf_revAgent]
              exact ⟨by simp, fun _ => hsup rfl (Or.inl h2), by simp⟩
            · by_cases h3 : stt.current_agent = "test_case_review_agent"
              · have htcs := hsup rfl (Or.inr h3)
                rcases hr : stt.review_result with _ | r
                · rw [router_after_review_none _ h3 hr]
                  split
                  · rw [routeOf_generator]
                    exact ⟨fun _ => htcs, by simp, by simp⟩
                  · rw [routeOf_genAgent]
                    exact ⟨by simp, by simp, by simp⟩
                · rw [router_after_review _ r h3 hr]
                  split
                  · rw [routeOf_generator]
                    exact ⟨fun _ => htcs, by simp, by simp⟩
                  · rw [routeOf_genAgent]
                    exact ⟨by simp, by simp, by simp⟩
              · rw [router_of_other_ca _ h1 h2 h3, routeOf_end]
                exact ⟨by simp, by simp, by simp⟩
      | generation =>
          rw [step_of_generation o _ rfl]
          obtain ⟨htcs', _, _, _, _⟩ := gen_node_spec stt o.gen
          exact ⟨by simp, by simp, fun _ _ => htcs'⟩
      | review =>
          rw [step_of_review o _ rfl]
          have htcs := hrev rfl
          obtain ⟨_, htcs', _, _⟩ := review_node_fields stt o.rev htcs
          exact ⟨by simp, by simp, fun _ _ => by rw [htcs']; exact htcs⟩
      | exporter =>
          exact ⟨by simp [step], by simp [step], by simp [step]⟩
      | terminal =>
          exact ⟨hexp, hrev, hsup⟩

theorem exportInv_run (req : String) (O : Nat → OracleStep) (n : Nat) :
    exportInv (run O (initialConfig req) n) := by
  induction n with
  | zero =>
      have h0 : run O (initialConfig req) 0 = initialConfig req := rfl
      rw [h0]
      refine ⟨by simp [initialConfig], by simp [initialConfig], ?_⟩
      intro _ hca
      rcases hca with hca | hca <;> simp [initialConfig, initialState] at hca
  | succ n ih => rw [run_succ]; exact exportInv_step _ _ ih

/-! #### Termination of the all-parsed run -/

theorem round_step (O : Nat → OracleStep) (c0 : Config)
    (hO : ∀ k, ∃ d, (O k).rev = RevOutcome.parsed d) (n : Nat)
    (h1 : (run O c0 n).node = Node.supervisor)
    (h2 : (run O c0 n).state.current_agent = "test_case_generation_agent")
    (h3 : (run O c0 n).state.test_cases ≠ []) :
    (run O c0 (n + 3)).node = Node.exporter
      ∨ ((run O c0 (n + 4)).node = Node.supervisor
          ∧ (run O c0 (n + 4)).state.current_agent = "test_case_generation_agent"
          ∧ (run O c0 (n + 4)).state.test_cases ≠ []
          ∧ (run O c0 (n + 4)).state.iteration_count
              = (run O c0 n).state.iteration_count + 1
          ∧ (run O c0 n).state.iteration_count + 1 < max_iterations) := by
  have e1 : run O c0 (n + 1) = ⟨Node.review, (run O c0 n).state⟩ := by
    rw [run_succ, step_of_supervisor _ _ h1, router_of_gen_ca _ h2, routeOf_revAgent]
  obtain ⟨d, hd⟩ := hO (n + 1)
  have e2 : run O c0 (n + 2) = ⟨Node.supervisor,
      test_case_review_agent_node (run O c0 n).state (RevOutcome.parsed d)⟩ := by
    rw [show n + 2 = (n + 1) + 1 from rfl, run_succ, e1, step_of_review _ _ rfl]
    rw [hd]
  obtain ⟨hca2, htcs2, _, _⟩ :=
    review_node_fields (run O c0 n).state (RevOutcome.parsed d) h3
  have hrr2 := review_node_result (run O c0 n).state (RevOutcome.parsed d) h3
  simp only at hrr2
  have hcnt2 := review_node_count_parsed (run O c0 n).state d h3
  by_cases hp : (normalizeReview d).is_passed.getD false
  · left
    rw [show n + 3 = (n + 2) + 1 from rfl, run_succ, e2, step_of_supervisor _ _ rfl,
      router_after_review _ _ hca2 hrr2, if_pos (Or.inl hp), routeOf_generator]
  · rw [if_neg hp] at hcnt2
    by_cases hlim : max_iterations ≤ (run O c0 n).state.iteration_count + 1
    · left
      rw [show n + 3 = (n + 2) + 1 from rfl, run_succ, e2, step_of_supervisor _ _ rfl,
        router_after_review _ _ hca2 hrr2, if_pos (Or.inr (by rw [hcnt2]; exact hlim)),
        routeOf_generator]
    · right
      have e3 : run O c0 (n + 3) = ⟨Node.generation,
          test_case_review_agent_node (run O c0 n).state (RevOutcome.parsed d)⟩ := by
        rw [show n + 3 = (n + 2) + 1 from rfl, run_succ, e2, step_of_supervisor _ _ rfl,
          router_after_review _ _ hca2 hrr2,
          if_neg (by rw [hcnt2]; rintro (hc | hc); exacts [hp hc, hlim hc]),
          routeOf_genAgent]
      have e4 : run O c0 (n + 4) = ⟨Node.supervisor,
          test_case_generation_agent_node
            (test_case_review_agent_node (run O c0 n).state (RevOutcome.parsed d))
            (O (n + 3)).gen⟩ := by
        rw [show n + 4 = (n + 3) + 1 from rfl, run_succ, e3, step_of_generation _ _ rfl]
      obtain ⟨htcs4, hca4, hcnt4, _, _⟩ := gen_node_spec
        (test_case_review_agent_node (run O c0 n).state (RevOutcome.parsed d))
        (O (n + 3)).gen
      refine ⟨by rw [e4], by rw [e4]; exact hca4, by rw [e4]; exact htcs4, ?_,
        by simp only [max_iterations] at hlim ⊢; omega⟩
      rw [e4]
      exact hcnt4.trans hcnt2

theorem reach_export_from (O : Nat → OracleStep) (c0 : Config)
    (hO : ∀ k, ∃ d, (O k).rev = RevOutcome.parsed d) :
    ∀ (fuel n : Nat),
      (run O c0 n).node = Node.supervisor →
      (run O c0 n).state.current_agent = "test_case_generation_agent" →
      (run O c0 n).state.test_cases ≠ [] →
      max_iterations ≤ (run O c0 n).state.iteration_count + fuel →
      ∃ j, (run O c0 (n + j)).node = Node.exporter := by
  intro fuel
  induction fuel with
  | zero =>
      intro n h1 h2 h3 h4
      rcases round_step O c0 hO n h1 h2 h3 with hexp | ⟨_, _, _, _, hlt⟩
      · exact ⟨3, hexp⟩
      · exact absurd h4 (by simp [max_iterations] at hlt ⊢; omega)
  | succ f ih =>
      intro n h1 h2 h3 h4
      rcases round_step O c0 hO n h1 h2 h3 with hexp | ⟨g1, g2, g3, hcnt, _⟩
      · exact ⟨3, hexp⟩
      · obtain ⟨j, hj⟩ := ih (n + 4) g1 g2 g3 (by rw [hcnt]; omega)
        exact ⟨4 + j, by rw [show n + (4 + j) = (n + 4) + j from by omega]; exact hj⟩

/-- Every carried suggestion occurs verbatim inside the generation prompt. -/
theorem suggestion_in_prompt (req : String) (sugg : List String) (s : String)
    (hs : s ∈ sugg) :
    pyContains (generationPrompt req sugg) s = true := by
  have hne : sugg ≠ [] := by rintro rfl; cases hs
  apply pyContains_of_data_infix
  rw [generationPrompt]
  simp only [ne_eq, hne, not_false_iff, if_pos, if_neg]
  have hsmem : ("- " ++ s) ∈ sugg.map (fun t => "- " ++ t) :=
    List.mem_map.mpr ⟨s, hs, rfl⟩
  have h1 : s.data <:+: (joinWith "\n" (sugg.map (fun t => "- " ++ t))).data := by
    refine List.IsInfix.trans ?_ (mem_infix_joinWith _ _ _ hsmem)
    rw [string_data_append]
    exact (List.suffix_append _ _).isInfix
  rw [string_data_append, string_data_append]
  exact (h1.trans (List.suffix_append _ _).isInfix).trans
    (List.suffix_append _ _).isInfix

end NL2SQL

/-- C7: any SQL whose stripped, uppercased text does not begin with `SELECT`,
or whose (stripped) uppercased text contains a denylisted keyword — stripping
edge whitespace cannot create or destroy a keyword occurrence — is rejected by
both `execute_query` and `validate_sql` with a message beginning `错误:`,
without being sent to the database. -/
theorem C7_sql_guard_rejects (sql : String)
    (h : ¬ NL2SQL.pyStartsWith (NL2SQL.pyStrip (NL2SQL.pyUpper (NL2SQL.pyStrip sql))) "SELECT"
        ∨ ∃ kw ∈ NL2SQL.dangerous_keywords,
            NL2SQL.pyContains (NL2SQL.pyStrip (NL2SQL.pyUpper (NL2SQL.pyStrip sql))) kw) :
    (∃ rest, NL2SQL.execute_query sql = .earlyError ("错误:" ++ rest))
      ∧ (∃ rest, NL2SQL.validate_sql sql = .earlyError ("错误:" ++ rest)) := by
  have key : ∃ rest, NL2SQL.execute_query sql = .earlyError ("错误:" ++ rest) := by
    by_cases hemp : sql = "" ∨ NL2SQL.pyStrip sql = ""
    · exact ⟨" SQL语句为空", by rw [NL2SQL.execute_query, if_pos hemp]; congr 1⟩
    · by_cases hsel :
          NL2SQL.pyStartsWith (NL2SQL.pyStrip (NL2SQL.pyUpper (NL2SQL.pyStrip sql))) "SELECT"
      · have hkw : ∃ kw ∈ NL2SQL.dangerous_keywords,
            NL2SQL.pyContains (NL2SQL.pyStrip (NL2SQL.pyUpper (NL2SQL.pyStrip sql))) kw := by
          rcases h with h | h
          · exact absurd hsel h
          · exact h
        have hsel' : ¬ ¬ NL2SQL.pyStartsWith
            (NL2SQL.pyStrip (NL2SQL.pyUpper (NL2SQL.pyStrip sql))) "SELECT" = true :=
          not_not_intro hsel
        rcases hfind : NL2SQL.dangerous_keywords.find?
            (fun kw => NL2SQL.pyContains
              (NL2SQL.pyStrip (NL2SQL.pyUpper (NL2SQL.pyStrip sql))) kw) with _ | kw
        · rcases hkw with ⟨kw, hmem, hc⟩
          have := List.find?_eq_none.mp hfind kw hmem
          simp [hc] at this
        · refine ⟨" SQL语句包含危险操作 \x27" ++ kw ++ "\x27，只允许执行SELECT查询语句", ?_⟩
          simp only [NL2SQL.execute_query, if_neg hemp, if_neg hsel', hfind]
          refine congrArg NL2SQL.SqlOutcome.earlyError ?_
          simp only [NL2SQL.string_append_assoc]
          exact NL2SQL.append_peel _ _ _ (by decide)
      · refine ⟨" 只允许执行SELECT查询语句，当前SQL语句以 \x27"
            ++ NL2SQL.pyTake (NL2SQL.pyStrip sql) 20 ++ "...\x27 开头", ?_⟩
        simp only [NL2SQL.execute_query, if_neg hemp, if_pos hsel]
        refine congrArg NL2SQL.SqlOutcome.earlyError ?_
        simp only [NL2SQL.string_append_assoc]
        exact NL2SQL.append_peel _ _ _ (by decide)
  exact ⟨key, by rw [NL2SQL.validate_sql_eq_execute_query]; exact key⟩

/-- Witness for C7 at the concrete statement `DROP TABLE users`. -/
theorem C7_sql_guard_rejects_witness :
    (¬ NL2SQL.pyStartsWith
          (NL2SQL.pyStrip (NL2SQL.pyUpper (NL2SQL.pyStrip "DROP TABLE users"))) "SELECT"
        ∨ ∃ kw ∈ NL2SQL.dangerous_keywords,
            NL2SQL.pyContains
              (NL2SQL.pyStrip (NL2SQL.pyUpper (NL2SQL.pyStrip "DROP TABLE users"))) kw)
      ∧ ((∃ rest, NL2SQL.execute_query "DROP TABLE users" = .earlyError ("错误:" ++ rest))
        ∧ (∃ rest, NL2SQL.validate_sql "DROP TABLE users" = .earlyError ("错误:" ++ rest))) :=
  ⟨by decide, C7_sql_guard_rejects "DROP TABLE users" (by decide)⟩

/-- C8: the download endpoint returns 400 when the decoded filename contains
`..`, `/` or `\`; returns 404 when the traversal check passes but the file
does not exist; and only ever serves a file whose resolved path lies inside
the resolved downloads directory. -/
theorem C8_download_guard (fs : NL2SQL.FileSystem) (decoded : String) :
    ((NL2SQL.pyContains decoded ".." ∨ NL2SQL.pyContains decoded "/"
        ∨ NL2SQL.pyContains decoded "\\") →
      NL2SQL.download_file fs decoded = .httpError 400 "Invalid filename")
    ∧ (¬ (NL2SQL.pyContains decoded ".." ∨ NL2SQL.pyContains decoded "/"
        ∨ NL2SQL.pyContains decoded "\\") →
      ¬ fs.pathExists (NL2SQL.DOWNLOADS_DIR ++ "/" ++ decoded) →
      NL2SQL.download_file fs decoded = .httpError 404 "File not found")
    ∧ (∀ p f, NL2SQL.download_file fs decoded = .file p f →
        fs.resolvesInsideDownloads p = true) := by
  refine ⟨?_, ?_, ?_⟩
  · intro hbad
    rw [NL2SQL.download_file, if_pos hbad]
  · intro hbad hne
    simp only [NL2SQL.download_file, if_neg hbad, if_pos hne]
  · intro p f hserve
    simp only [NL2SQL.download_file] at hserve
    split at hserve
    · exact absurd hserve (by simp)
    · split at hserve
      · exact absurd hserve (by simp)
      · split at hserve
        · exact absurd hserve (by simp)
        · rename_i hres
          cases hserve
          simpa using hres

/-- Witness for C8: a traversal name is rejected with 400, and a clean but
missing name yields 404 on an empty filesystem. -/
theorem C8_download_guard_witness :
    NL2SQL.download_file ⟨fun _ => false, fun _ => false⟩ "a..b"
        = .httpError 400 "Invalid filename"
      ∧ NL2SQL.download_file ⟨fun _ => false, fun _ => false⟩ "report.xlsx"
        = .httpError 404 "File not found" :=
  ⟨(C8_download_guard ⟨fun _ => false, fun _ => false⟩ "a..b").1 (by decide),
   (C8_download_guard ⟨fun _ => false, fun _ => false⟩ "report.xlsx").2.1
     (by decide) (by decide)⟩

/-- C9: `save_test_cases` is total over parse outcomes (the `try`/`except`
catches every error): a parse failure returns the `保存失败` message and
leaves the shared state untouched; a parse success stores a list — wrapping a
top-level object into a singleton — and returns the count message. -/
theorem C9_save_test_cases_total (parsed : Except String NL2SQL.Json)
    (st : NL2SQL.GlobalState) :
    (∀ e, parsed = .error e →
        (NL2SQL.save_test_cases parsed st).1 = "保存失败: " ++ e
          ∧ (NL2SQL.save_test_cases parsed st).2 = st)
    ∧ (∀ fields, parsed = .ok (.obj fields) →
        (NL2SQL.save_test_cases parsed st).2.test_cases = [NL2SQL.Json.obj fields])
    ∧ (∀ elems, parsed = .ok (.arr elems) →
        (NL2SQL.save_test_cases parsed st).2.test_cases = elems)
    ∧ (∀ j, parsed = .ok j →
        (NL2SQL.save_test_cases parsed st).1
          = "测试用例编写结果已保存: "
            ++ toString (NL2SQL.save_test_cases parsed st).2.test_cases.length
            ++ " 个测试用例") := by
  refine ⟨?_, ?_, ?_, ?_⟩
  · intro e he; subst he; exact ⟨rfl, rfl⟩
  · intro fields hf; subst hf; rfl
  · intro elems he; subst he; rfl
  · intro j hj; subst hj; cases j <;> rfl

/-- Witness for C9: a failing parse and a top-level-object parse, both on the
empty scratch state. -/
theorem C9_save_test_cases_total_witness :
    ((NL2SQL.save_test_cases (.error "Expecting value") ⟨[]⟩).1
        = "保存失败: " ++ "Expecting value"
      ∧ (NL2SQL.save_test_cases (.error "Expecting value") ⟨[]⟩).2 = ⟨[]⟩)
    ∧ (NL2SQL.save_test_cases (.ok (.obj [])) ⟨[]⟩).2.test_cases
        = [NL2SQL.Json.obj []] :=
  ⟨(C9_save_test_cases_total (.error "Expecting value") ⟨[]⟩).1 "Expecting value" rfl,
   (C9_save_test_cases_total (.ok (.obj [])) ⟨[]⟩).2.1 [] rfl⟩

/-- C1 counterexample: under the oracle whose every review reply fails
`json.loads` (so the parse-failure default review is installed each time), the
run from the initial state never reaches the exporter node and never
terminates — the iteration counter is never incremented on that path, so the
bound of three iterations is never hit. -/
theorem C1_loop_counterexample :
    (¬ ∃ n, (NL2SQL.run NL2SQL.allFailOracle (NL2SQL.initialConfig "需求") n).node
        = NL2SQL.Node.exporter)
      ∧ (¬ ∃ n, (NL2SQL.run NL2SQL.allFailOracle (NL2SQL.initialConfig "需求") n).node
        = NL2SQL.Node.terminal) := by
  constructor
  · rintro ⟨n, hn⟩
    exact (NL2SQL.loopInv_position _ (NL2SQL.loopInv_run "需求" n)).1 hn
  · rintro ⟨n, hn⟩
    exact (NL2SQL.loopInv_position _ (NL2SQL.loopInv_run "需求" n)).2 hn

/-- C1 (amended): for every run of the compiled graph from the initial state
whose review replies all parse successfully, the loop terminates and the
exporter node `test_case_generator` is executed exactly once. -/
theorem C1_loop_terminates (req : String) (O : Nat → NL2SQL.OracleStep)
    (hO : ∀ k, ∃ d, (O k).rev = NL2SQL.RevOutcome.parsed d) :
    ∃ n, (NL2SQL.run O (NL2SQL.initialConfig req) n).node = NL2SQL.Node.exporter
      ∧ (∀ m, (NL2SQL.run O (NL2SQL.initialConfig req) m).node = NL2SQL.Node.exporter
          → m = n)
      ∧ ∀ m, n < m →
          (NL2SQL.run O (NL2SQL.initialConfig req) m).node = NL2SQL.Node.terminal := by
  have e1 : NL2SQL.run O (NL2SQL.initialConfig req) 1
      = ⟨NL2SQL.Node.generation, NL2SQL.initialState req⟩ := by
    rw [show (1 : Nat) = 0 + 1 from rfl, NL2SQL.run_succ,
      NL2SQL.step_of_supervisor _ _ rfl, NL2SQL.router_of_empty_ca _ rfl,
      NL2SQL.routeOf_genAgent]
    rfl
  have e2 : NL2SQL.run O (NL2SQL.initialConfig req) 2
      = ⟨NL2SQL.Node.supervisor,
          NL2SQL.test_case_generation_agent_node (NL2SQL.initialState req) (O 1).gen⟩ := by
    rw [show (2 : Nat) = 1 + 1 from rfl, NL2SQL.run_succ, e1]
    rfl
  obtain ⟨htcs2, hca2, _, _, _⟩ :=
    NL2SQL.gen_node_spec (NL2SQL.initialState req) (O 1).gen
  obtain ⟨j, hj⟩ := NL2SQL.reach_export_from O (NL2SQL.initialConfig req) hO 3 2
    (by rw [e2]) (by rw [e2]; exact hca2) (by rw [e2]; exact htcs2)
    (by simp [NL2SQL.max_iterations])
  have hterm : (NL2SQL.run O (NL2SQL.initialConfig req) (2 + j + 1)).node
      = NL2SQL.Node.terminal := by
    rw [NL2SQL.run_succ]
    exact NL2SQL.step_of_export _ _ hj
  refine ⟨2 + j, hj, ?_, ?_⟩
  · intro m hm
    by_contra hne
    rcases Nat.lt_or_ge m (2 + j) with hlt | hge
    · have hmterm : (NL2SQL.run O (NL2SQL.initialConfig req) (m + 1)).node
          = NL2SQL.Node.terminal := by
        rw [NL2SQL.run_succ]
        exact NL2SQL.step_of_export _ _ hm
      have := NL2SQL.run_terminal_after O _ (m + 1) hmterm (2 + j) (by omega)
      rw [hj] at this
      simp at this
    · have := NL2SQL.run_terminal_after O _ (2 + j + 1) hterm m (by omega)
      rw [hm] at this
      simp at this
  · intro m hlt
    exact NL2SQL.run_terminal_after O _ (2 + j + 1) hterm m (by omega)

/-- Witness for C1 (amended) at the all-pass oracle. -/
theorem C1_loop_terminates_witness :
    (∀ k, ∃ d, (NL2SQL.passOracle k).rev = NL2SQL.RevOutcome.parsed d)
      ∧ ∃ n, (NL2SQL.run NL2SQL.passOracle (NL2SQL.initialConfig "需求") n).node
            = NL2SQL.Node.exporter
          ∧ (∀ m, (NL2SQL.run NL2SQL.passOracle (NL2SQL.initialConfig "需求") m).node
              = NL2SQL.Node.exporter → m = n)
          ∧ ∀ m, n < m →
              (NL2SQL.run NL2SQL.passOracle (NL2SQL.initialConfig "需求") m).node
                = NL2SQL.Node.terminal :=
  ⟨fun _ => ⟨_, rfl⟩,
   C1_loop_terminates "需求" NL2SQL.passOracle (fun _ => ⟨_, rfl⟩)⟩

/-- C2 counterexample: a full generation-then-review round in which the review
reply fails to parse leaves `iteration_count` at 0 — it is not incremented
once per generation attempt. -/
theorem C2_increment_counterexample :
    (NL2SQL.run NL2SQL.allFailOracle (NL2SQL.initialConfig "需求") 2).state.current_agent
        = "test_case_generation_agent"
      ∧ (NL2SQL.run NL2SQL.allFailOracle (NL2SQL.initialConfig "需求") 4).state.current_agent
        = "test_case_review_agent"
      ∧ (NL2SQL.run NL2SQL.allFailOracle (NL2SQL.initialConfig "需求") 4).state.iteration_count
        = 0 := by
  decide

/-- C2 (amended): `iteration_count` is incremented by the review node exactly
when the reply parses to a not-passed review (it stays unchanged when the
review passes and on every parse-failure or exception path); the generation
node never changes it; and once `iteration_count ≥ max_iterations` the
post-review router exports regardless of the review outcome. -/
theorem C2_increment_and_bound (st : NL2SQL.AgentState) (o : NL2SQL.RevOutcome)
    (h : st.test_cases ≠ []) :
    ((NL2SQL.test_case_review_agent_node st o).iteration_count
        = st.iteration_count
          + (match o with
             | NL2SQL.RevOutcome.parsed d =>
                if (NL2SQL.normalizeReview d).is_passed.getD false then 0 else 1
             | _ => 0))
      ∧ (∀ st' : NL2SQL.AgentState, st'.current_agent = "test_case_review_agent" →
          NL2SQL.max_iterations ≤ st'.iteration_count →
          NL2SQL.supervisor_router st' = "test_case_generator")
      ∧ (∀ (st'' : NL2SQL.AgentState) (g : NL2SQL.GenOutcome),
          (NL2SQL.test_case_generation_agent_node st'' g).iteration_count
            = st''.iteration_count) := by
  refine ⟨(NL2SQL.review_node_fields st o h).2.2.2, ?_, ?_⟩
  · intro st' hca hge
    rcases hr : st'.review_result with _ | r
    · rw [NL2SQL.router_after_review_none _ hca hr, if_pos hge]
    · rw [NL2SQL.router_after_review _ r hca hr, if_pos (Or.inr hge)]
  · intro st'' g
    exact (NL2SQL.gen_node_spec st'' g).2.2.1

/-- Witness for C2 (amended): a parse-failure review on a post-generation
state leaves the counter unchanged. -/
theorem C2_increment_and_bound_witness :
    NL2SQL.cexState.test_cases ≠ []
      ∧ (NL2SQL.test_case_review_agent_node NL2SQL.cexState
          NL2SQL.RevOutcome.jsonError).iteration_count
        = NL2SQL.cexState.iteration_count + 0 :=
  ⟨by decide,
   (C2_increment_and_bound NL2SQL.cexState NL2SQL.RevOutcome.jsonError (by decide)).1⟩

/-- C3 counterexample: after a review whose reply fails to parse, the router
goes back to the generation node but the stored review's suggestions are not
carried — `optimization_suggestions` stays empty and the next generation
prompt does not contain them. -/
theorem C3_carry_counterexample :
    (NL2SQL.test_case_review_agent_node NL2SQL.cexState
        NL2SQL.RevOutcome.jsonError).current_agent = "test_case_review_agent"
      ∧ (NL2SQL.test_case_review_agent_node NL2SQL.cexState
          NL2SQL.RevOutcome.jsonError).review_result = some NL2SQL.defaultReview
      ∧ NL2SQL.defaultReview.suggestions.getD [] = ["评审过程出现错误，请检查测试用例"]
      ∧ NL2SQL.supervisor_router
          (NL2SQL.test_case_review_agent_node NL2SQL.cexState NL2SQL.RevOutcome.jsonError)
        = "test_case_generation_agent"
      ∧ (NL2SQL.test_case_review_agent_node NL2SQL.cexState
          NL2SQL.RevOutcome.jsonError).optimization_suggestions = []
      ∧ NL2SQL.pyContains
          (NL2SQL.generationPrompt
            (NL2SQL.test_case_review_agent_node NL2SQL.cexState
              NL2SQL.RevOutcome.jsonError).original_requirement
            (NL2SQL.test_case_review_agent_node NL2SQL.cexState
              NL2SQL.RevOutcome.jsonError).optimization_suggestions)
          "评审过程出现错误，请检查测试用例" = false := by
  decide

/-- C3 (amended): after review the router exports iff the stored review is
passed or the iteration bound is reached, and otherwise goes back to
generation; when the review node stores a successfully parsed not-passed
review, its suggestions are carried to the next generation attempt as
`optimization_suggestions`, each appearing verbatim in the generation prompt
(parse-failure and exception defaults do not update them). -/
theorem C3_routing_and_carry (st : NL2SQL.AgentState) (r : NL2SQL.ReviewData)
    (hca : st.current_agent = "test_case_review_agent")
    (hr : st.review_result = some r) :
    (NL2SQL.supervisor_router st = "test_case_generator"
        ↔ (r.is_passed.getD false = true
            ∨ st.iteration_count ≥ NL2SQL.max_iterations))
      ∧ (NL2SQL.supervisor_router st = "test_case_generation_agent"
        ↔ ¬ (r.is_passed.getD false = true
            ∨ st.iteration_count ≥ NL2SQL.max_iterations))
      ∧ (∀ (st' : NL2SQL.AgentState) (d : NL2SQL.ReviewData), st'.test_cases ≠ [] →
          (NL2SQL.normalizeReview d).is_passed.getD false = false →
          (NL2SQL.test_case_review_agent_node st'
              (NL2SQL.RevOutcome.parsed d)).optimization_suggestions
              = (NL2SQL.normalizeReview d).suggestions.getD []
            ∧ ∀ s ∈ (NL2SQL.normalizeReview d).suggestions.getD [],
                NL2SQL.pyContains
                  (NL2SQL.generationPrompt st'.original_requirement
                    (NL2SQL.test_case_review_agent_node st'
                      (NL2SQL.RevOutcome.parsed d)).optimization_suggestions)
                  s = true) := by
  rw [NL2SQL.router_after_review st r hca hr]
  refine ⟨?_, ?_, ?_⟩
  · by_cases hcond : r.is_passed.getD false = true
        ∨ st.iteration_count ≥ NL2SQL.max_iterations <;> simp [hcond]
  · by_cases hcond : r.is_passed.getD false = true
        ∨ st.iteration_count ≥ NL2SQL.max_iterations <;> simp [hcond]
  · intro st' d htcs hnp
    have hcarry := NL2SQL.review_node_suggestions st' d htcs hnp
    refine ⟨hcarry, ?_⟩
    intro s hs
    rw [hcarry]
    exact NL2SQL.suggestion_in_prompt st'.original_requirement _ s hs

/-- Witness for C3 (amended) at a post-review state holding the not-passed
fallback review. -/
theorem C3_routing_and_carry_witness :
    (NL2SQL.reviewedState.current_agent = "test_case_review_agent"
        ∧ NL2SQL.reviewedState.review_result = some NL2SQL.defaultReview)
      ∧ (NL2SQL.supervisor_router NL2SQL.reviewedState = "test_case_generator"
        ↔ (NL2SQL.defaultReview.is_passed.getD false = true
            ∨ NL2SQL.reviewedState.iteration_count ≥ NL2SQL.max_iterations)) :=
  ⟨⟨rfl, rfl⟩,
   (C3_routing_and_carry NL2SQL.reviewedState NL2SQL.defaultReview rfl rfl).1⟩

/-- C4 counterexample: a post-review state whose stored review has
`score = 95 ≥ 80` but no `is_passed` key is routed back to generation, not to
the exporter — the router tests `is_passed`, not the score. -/
theorem C4_score_counterexample :
    (NL2SQL.test_case_review_agent_node NL2SQL.cexState
        (NL2SQL.RevOutcome.parsed NL2SQL.highScoreReview)).review_result
        = some NL2SQL.highScoreReview
      ∧ NL2SQL.highScoreReview.score.getD 0 ≥ 80
      ∧ (NL2SQL.test_case_review_agent_node NL2SQL.cexState
          (NL2SQL.RevOutcome.parsed NL2SQL.highScoreReview)).current_agent
        = "test_case_review_agent"
      ∧ (NL2SQL.test_case_review_agent_node NL2SQL.cexState
          (NL2SQL.RevOutcome.parsed NL2SQL.highScoreReview)).iteration_count
        < NL2SQL.max_iterations
      ∧ NL2SQL.supervisor_router
          (NL2SQL.test_case_review_agent_node NL2SQL.cexState
            (NL2SQL.RevOutcome.parsed NL2SQL.highScoreReview))
        = "test_case_generation_agent" := by
  decide

/-- C4 (amended): the post-review router is driven by `is_passed`: a passed
review routes to the exporter, a not-passed one below the iteration bound
routes back to generation; for reviews completed by the node's normalization
(no `"score"` key in the reply) `is_passed` agrees with `score ≥ 80`, so for
those the score conditions of the claim hold. -/
theorem C4_threshold_routing (st : NL2SQL.AgentState) (r : NL2SQL.ReviewData)
    (hca : st.current_agent = "test_case_review_agent")
    (hr : st.review_result = some r) :
    (r.is_passed.getD false = true →
        NL2SQL.supervisor_router st = "test_case_generator")
      ∧ (r.is_passed.getD false = false →
          st.iteration_count < NL2SQL.max_iterations →
          NL2SQL.supervisor_router st = "test_case_generation_agent")
      ∧ (∀ d : NL2SQL.ReviewData, d.score = none →
          ((NL2SQL.normalizeReview d).is_passed = some true
            ↔ (NL2SQL.normalizeReview d).score.getD 0 ≥ 80)) := by
  refine ⟨?_, ?_, ?_⟩
  · intro hp
    rw [NL2SQL.router_after_review st r hca hr, if_pos (Or.inl hp)]
  · intro hp hlt
    rw [NL2SQL.router_after_review st r hca hr, if_neg]
    rintro (hc | hc)
    · rw [hp] at hc
      cases hc
    · exact Nat.not_le_of_lt hlt hc
  · intro d hd
    simp [NL2SQL.normalizeReview, hd]

/-- Witness for C4 (amended) at a post-review state holding the not-passed
fallback review below the iteration bound. -/
theorem C4_threshold_routing_witness :
    (NL2SQL.reviewedState.current_agent = "test_case_review_agent"
        ∧ NL2SQL.reviewedState.review_result = some NL2SQL.defaultReview
        ∧ NL2SQL.defaultReview.is_passed.getD false = false
        ∧ NL2SQL.reviewedState.iteration_count < NL2SQL.max_iterations)
      ∧ NL2SQL.supervisor_router NL2SQL.reviewedState = "test_case_generation_agent" :=
  ⟨⟨rfl, rfl, rfl, by decide⟩,
   (C4_threshold_routing NL2SQL.reviewedState NL2SQL.defaultReview rfl rfl).2.1 rfl
     (by decide)⟩

/-- C5 counterexample: a parsed reply that already contains a `"score"` key is
stored verbatim, so the stored review can violate both the mean rule and the
threshold rule at once. -/
theorem C5_mean_counterexample :
    (NL2SQL.test_case_review_agent_node NL2SQL.cexState
        (NL2SQL.RevOutcome.parsed NL2SQL.badReview)).review_result
        = some NL2SQL.badReview
      ∧ NL2SQL.badReview.score = some 100
      ∧ NL2SQL.badReview.coverage_score = some 0
      ∧ NL2SQL.badReview.executability_score = some 0
      ∧ NL2SQL.badReview.clarity_score = some 0
      ∧ (100 : Int) ≠ ((0 : Int) + 0 + 0) / 3
      ∧ NL2SQL.badReview.is_passed = some false
      ∧ NL2SQL.badReview.score.getD 0 ≥ 80 := by
  decide

/-- C5 (amended): a review completed by the node's normalization (no `"score"`
key, zero or absent `"total_score"`, non-empty `"scores"` dict) stores as
`score` the integer-truncated mean of the three sub-scores it also stores, and
`is_passed` holds iff that score is at least 80; a reply already carrying a
`"score"` key is stored verbatim; the fallback reviews carry score 60 and
`is_passed = false`.  (The 90 threshold appears only in prompt text, not in
code.) -/
theorem C5_score_normalization :
    (∀ (d : NL2SQL.ReviewData) (sc : NL2SQL.ScoresDict), d.score = none →
        (d.total_score = none ∨ d.total_score = some 0) →
        d.scores = some sc → sc ≠ [] →
        ((NL2SQL.normalizeReview d).score
            = some ((NL2SQL.dictGetInt sc "coverage" 0
                + NL2SQL.dictGetInt sc "executability" 0
                + NL2SQL.dictGetInt sc "clarity" 0) / 3)
          ∧ (NL2SQL.normalizeReview d).coverage_score
              = some (NL2SQL.dictGetInt sc "coverage" 0)
          ∧ (NL2SQL.normalizeReview d).executability_score
              = some (NL2SQL.dictGetInt sc "executability" 0)
          ∧ (NL2SQL.normalizeReview d).clarity_score
              = some (NL2SQL.dictGetInt sc "clarity" 0)
          ∧ ((NL2SQL.normalizeReview d).is_passed = some true
              ↔ (NL2SQL.normalizeReview d).score.getD 0 ≥ 80)))
      ∧ (∀ (d : NL2SQL.ReviewData) (x : Int), d.score = some x →
          NL2SQL.normalizeReview d = d)
      ∧ (NL2SQL.defaultReview.score = some 60
          ∧ NL2SQL.defaultReview.is_passed = some false)
      ∧ (∀ e, (NL2SQL.defaultReviewExc e).score = some 60
          ∧ (NL2SQL.defaultReviewExc e).is_passed = some false) := by
  refine ⟨?_, ?_, ⟨rfl, rfl⟩, fun e => ⟨rfl, rfl⟩⟩
  · intro d sc hscore htot hsc hne
    have h0 : d.total_score.getD 0 = 0 := by
      rcases htot with h | h <;> simp [h]
    refine ⟨?_, ?_, ?_, ?_, ?_⟩ <;>
      simp [NL2SQL.normalizeReview, hscore, hsc, h0, hne, decide_eq_true_eq]
  · intro d x h
    simp [NL2SQL.normalizeReview, h]

/-- Witness for C5 (amended): a `"scores"`-only reply with sub-scores 90, 80
and 70 normalizes to score 80 and passes. -/
theorem C5_score_normalization_witness :
    (NL2SQL.meanScoresReview.score = none
        ∧ NL2SQL.meanScoresReview.total_score = none
        ∧ NL2SQL.meanScoresReview.scores
            = some [("coverage", 90), ("executability", 80), ("clarity", 70)]
        ∧ ([("coverage", (90 : Int)), ("executability", 80), ("clarity", 70)]
            : NL2SQL.ScoresDict) ≠ [])
      ∧ (NL2SQL.normalizeReview NL2SQL.meanScoresReview).score
          = some ((NL2SQL.dictGetInt [("coverage", 90), ("executability", 80),
                ("clarity", 70)] "coverage" 0
              + NL2SQL.dictGetInt [("coverage", 90), ("executability", 80),
                ("clarity", 70)] "executability" 0
              + NL2SQL.dictGetInt [("coverage", 90), ("executability", 80),
                ("clarity", 70)] "clarity" 0) / 3) :=
  ⟨⟨rfl, rfl, rfl, by decide⟩,
   ((C5_score_normalization.1 NL2SQL.meanScoresReview
      [("coverage", 90), ("executability", 80), ("clarity", 70)]
      rfl (Or.inl rfl) rfl (by decide)).1)⟩

/-- C6: in every run of the compiled graph from the initial state, whenever
the exporter node is about to execute the test-case list is non-empty; and
every execution of the generation node — its exception path included — leaves
a non-empty test-case list. -/
theorem C6_export_nonempty (req : String) (O : Nat → NL2SQL.OracleStep) (n : Nat)
    (h : (NL2SQL.run O (NL2SQL.initialConfig req) n).node = NL2SQL.Node.exporter) :
    (NL2SQL.run O (NL2SQL.initialConfig req) n).state.test_cases ≠ []
      ∧ ∀ (st : NL2SQL.AgentState) (g : NL2SQL.GenOutcome),
          (NL2SQL.test_case_generation_agent_node st g).test_cases ≠ [] :=
  ⟨(NL2SQL.exportInv_run req O n).1 h,
   fun st g => (NL2SQL.gen_node_spec st g).1⟩

/-- Witness for C6: under the all-pass oracle the exporter is reached at step
5 with a non-empty list. -/
theorem C6_export_nonempty_witness :
    (NL2SQL.run NL2SQL.passOracle (NL2SQL.initialConfig "需求") 5).node
        = NL2SQL.Node.exporter
      ∧ ((NL2SQL.run NL2SQL.passOracle (NL2SQL.initialConfig "需求") 5).state.test_cases
          ≠ []
        ∧ ∀ (st : NL2SQL.AgentState) (g : NL2SQL.GenOutcome),
            (NL2SQL.test_case_generation_agent_node st g).test_cases ≠ []) :=
  ⟨by decide, C6_export_nonempty "需求" NL2SQL.passOracle 5 (by decide)⟩

/-- C10 counterexample: when the reviewer's reply contains no JSON object and
a previous review result is already stored, the node keeps the previous result
instead of installing the score-60 default — refuting "on every parse-failure
path a default result is installed". -/
theorem C10_default_counterexample :
    NL2SQL.prevState.test_cases ≠ []
      ∧ (NL2SQL.test_case_review_agent_node NL2SQL.prevState
          NL2SQL.RevOutcome.noJsonMatch).review_result = some NL2SQL.prevReview
      ∧ NL2SQL.prevReview ≠ NL2SQL.defaultReview
      ∧ (NL2SQL.test_case_review_agent_node NL2SQL.prevState
          NL2SQL.RevOutcome.noJsonMatch).review_result
        ≠ some NL2SQL.defaultReview := by
  decide

/-- C10 (amended): on a non-empty test-case list the review node always
returns a non-`None` review result — the score-60 default is installed on the
`json.loads`-failure path, the exception default on the exception path, and on
a reply with no JSON object only when no previous result exists (otherwise the
previous result is kept); on an empty test-case list the state is returned
with only an error message appended. -/
theorem C10_review_result_total (st : NL2SQL.AgentState) (o : NL2SQL.RevOutcome) :
    (st.test_cases ≠ [] →
        ((NL2SQL.test_case_review_agent_node st o).review_result.isSome
          ∧ (o = NL2SQL.RevOutcome.jsonError →
              (NL2SQL.test_case_review_agent_node st o).review_result
                = some NL2SQL.defaultReview)
          ∧ (∀ e, o = NL2SQL.RevOutcome.exc e →
              (NL2SQL.test_case_review_agent_node st o).review_result
                = some (NL2SQL.defaultReviewExc e))
          ∧ (o = NL2SQL.RevOutcome.noJsonMatch → st.review_result = none →
              (NL2SQL.test_case_review_agent_node st o).review_result
                = some NL2SQL.defaultReview)
          ∧ (o = NL2SQL.RevOutcome.noJsonMatch → ∀ r, st.review_result = some r →
              (NL2SQL.test_case_review_agent_node st o).review_result = some r)
          ∧ (∀ d, o = NL2SQL.RevOutcome.parsed d →
              (NL2SQL.test_case_review_agent_node st o).review_result
                = some (NL2SQL.normalizeReview d))
          ∧ NL2SQL.defaultReview.score = some 60
          ∧ NL2SQL.defaultReview.is_passed = some false
          ∧ (∀ e, (NL2SQL.defaultReviewExc e).score = some 60
              ∧ (NL2SQL.defaultReviewExc e).is_passed = some false)))
      ∧ (st.test_cases = [] →
          NL2SQL.test_case_review_agent_node st o
            = { st with messages := st.messages ++ ["错误：没有测试用例，无法进行评审"] }) := by
  constructor
  · intro h
    have hres := NL2SQL.review_node_result st o h
    refine ⟨?_, ?_, ?_, ?_, ?_, ?_, rfl, rfl, fun e => ⟨rfl, rfl⟩⟩
    · rw [hres]
      cases o with
      | parsed d => simp
      | jsonError => simp
      | noJsonMatch => cases st.review_result <;> simp
      | exc e => simp
    · rintro rfl
      rw [hres]
    · rintro e rfl
      rw [hres]
    · rintro rfl hr
      rw [hres, hr]
    · rintro rfl r hr
      rw [hres, hr]
    · rintro d rfl
      rw [hres]
  · intro he
    cases o <;> simp [NL2SQL.test_case_review_agent_node, he]

/-- Witness for C10 (amended): the `json.loads`-failure path on a
post-generation state installs the score-60 default. -/
theorem C10_review_result_total_witness :
    NL2SQL.cexState.test_cases ≠ []
      ∧ (NL2SQL.test_case_review_agent_node NL2SQL.cexState
          NL2SQL.RevOutcome.jsonError).review_result = some NL2SQL.defaultReview :=
  ⟨by decide,
   ((C10_review_result_total NL2SQL.cexState NL2SQL.RevOutcome.jsonError).1
      (by decide)).2.1 rfl⟩
